import Mathlib

/-!
Verification of the Markdown line classifier in `scripts/convert_to_docx.py`
(function `convert_markdown_to_docx`, lines 34-96).

The script scans the input lines once, keeping two pieces of state
(`in_code_block : bool` and `code_block_content : list of lines`), and maps
each line to at most one output document block.  We embed the classification
loop shallowly: lines are `List Char` (the script works on Python `str`
lines obtained by splitting the file contents on `'\n'`), and the document
blocks produced through the `python-docx` API are represented by the tagged
type `Block` below (one constructor per `doc.add_*` call site of the loop).
-/

namespace Farmverse

/-- Output unit of the classifier: one constructor per kind of element the
loop adds to the document (heading at a level, horizontal rule, paragraph of
bold and non-bold runs, bullet item, numbered item, code block, plain
paragraph, empty paragraph for a blank line). -/
inductive Block where
  | Heading (level : Nat) (text : List Char)
  | Rule
  | MixedParagraph (runs : List (List Char × Bool))
  | BulletItem (text : List Char)
  | NumberedItem (text : List Char)
  | CodeBlock (text : List Char)
  | Paragraph (text : List Char)
  | BlankLine
deriving DecidableEq, Repr

/-- Python `line.startswith(p)` for strings as character lists. -/
def startsWith : List Char → List Char → Bool
  | [], _ => true
  | _ :: _, [] => false
  | p :: ps, c :: cs => p == c && startsWith ps cs

/-- Python `'**' in line` (line 72): the line has two adjacent asterisks. -/
def containsStars : List Char → Bool
  | '*' :: '*' :: _ => true
  | _ :: cs => containsStars cs
  | [] => false

/-- Python `line.split('**')` (line 74): split on every non-overlapping
occurrence of `**`, scanning left to right; `acc` holds the current piece
reversed. -/
def splitStarsAux : List Char → List Char → List (List Char)
  | '*' :: '*' :: rest, acc => acc.reverse :: splitStarsAux rest []
  | c :: rest, acc => splitStarsAux rest (c :: acc)
  | [], acc => [acc.reverse]

/-- `parts = line.split('**')` of the source. -/
def pySplitStars (l : List Char) : List (List Char) :=
  splitStarsAux l []

/-- Lines 74-80 of the source: enumerate the split pieces; a piece at even
index is a plain run, at odd index a bold run. -/
def mixedRuns (l : List Char) : List (List Char × Bool) :=
  (pySplitStars l).enum.map (fun ip => (ip.2, ip.1 % 2 != 0))

/-- Code-point ranges of the Unicode decimal-digit category `Nd`, which is
exactly what `\d` matches in a Python regular expression over `str` (660
code points; `²`, category `No`, is correctly outside). -/
def pyDigitRanges : List (Nat × Nat) :=
  [(0x30, 0x39), (0x660, 0x669), (0x6f0, 0x6f9), (0x7c0, 0x7c9), (0x966,
   0x96f), (0x9e6, 0x9ef), (0xa66, 0xa6f), (0xae6, 0xaef), (0xb66, 0xb6f),
   (0xbe6, 0xbef), (0xc66, 0xc6f), (0xce6, 0xcef), (0xd66, 0xd6f), (0xde6,
   0xdef), (0xe50, 0xe59), (0xed0, 0xed9), (0xf20, 0xf29), (0x1040, 0x1049),
   (0x1090, 0x1099), (0x17e0, 0x17e9), (0x1810, 0x1819), (0x1946, 0x194f),
   (0x19d0, 0x19d9), (0x1a80, 0x1a89), (0x1a90, 0x1a99), (0x1b50, 0x1b59),
   (0x1bb0, 0x1bb9), (0x1c40, 0x1c49), (0x1c50, 0x1c59), (0xa620, 0xa629),
   (0xa8d0, 0xa8d9), (0xa900, 0xa909), (0xa9d0, 0xa9d9), (0xa9f0, 0xa9f9),
   (0xaa50, 0xaa59), (0xabf0, 0xabf9), (0xff10, 0xff19), (0x104a0, 0x104a9),
   (0x10d30, 0x10d39), (0x11066, 0x1106f), (0x110f0, 0x110f9), (0x11136,
   0x1113f), (0x111d0, 0x111d9), (0x112f0, 0x112f9), (0x11450, 0x11459),
   (0x114d0, 0x114d9), (0x11650, 0x11659), (0x116c0, 0x116c9), (0x11730,
   0x11739), (0x118e0, 0x118e9), (0x11950, 0x11959), (0x11c50, 0x11c59),
   (0x11d50, 0x11d59), (0x11da0, 0x11da9), (0x16a60, 0x16a69), (0x16ac0,
   0x16ac9), (0x16b50, 0x16b59), (0x1d7ce, 0x1d7ff), (0x1e140, 0x1e149),
   (0x1e2f0, 0x1e2f9), (0x1e950, 0x1e959), (0x1fbf0, 0x1fbf9)]

/-- Python's `\d` on a `str`: a Unicode decimal digit (category `Nd`). -/
def pyIsDigit (c : Char) : Bool :=
  pyDigitRanges.any (fun p => decide (p.1 ≤ c.toNat) && decide (c.toNat ≤ p.2))

/-- Helper for the regex `^\d+\. ` (line 87): drop the maximal run of
leading digits. -/
def skipDigits : List Char → List Char
  | c :: cs => if pyIsDigit c then skipDigits cs else c :: cs
  | [] => []

/-- Python `re.match(r'^\d+\. ', line)` as a boolean: one or more Unicode
decimal digits, then a period, then a space, at the start of the line.
(The regex admits no backtracking here: `\d+` must consume exactly the
maximal digit run, since the following character is required to be `.`,
not a digit.) -/
def numMatch : List Char → Bool
  | c :: cs =>
    pyIsDigit c &&
      (match skipDigits cs with
       | '.' :: ' ' :: _ => true
       | _ => false)
  | [] => false

/-- Python `line[line.find(' ')+1:]` (line 88): everything after the first
space; when no space occurs, `find` returns `-1` and the slice `line[0:]`
is the whole line. -/
def numberedText (l : List Char) : List Char :=
  match l.findIdx? (fun c => c == ' ') with
  | some i => l.drop (i + 1)
  | none => l

/-- Code points of the characters removed by Python `str.strip()` with no
argument: the ASCII whitespace `\t \n \v \f \r` and space, the information
separators U+001C-U+001F, next line U+0085, no-break space U+00A0, and the
Unicode space/line/paragraph separators (categories `Zs`, `Zl`, `Zp`). -/
def pyStripCodes : List Nat :=
  [0x9, 0xa, 0xb, 0xc, 0xd, 0x1c, 0x1d, 0x1e, 0x1f, 0x20, 0x85, 0xa0, 0x1680,
   0x2000, 0x2001, 0x2002, 0x2003, 0x2004, 0x2005, 0x2006, 0x2007, 0x2008,
   0x2009, 0x200a, 0x2028, 0x2029, 0x202f, 0x205f, 0x3000]

/-- A character is whitespace for Python `str.strip()`. -/
def isPySpace (c : Char) : Bool :=
  pyStripCodes.contains c.toNat

/-- Python `line.strip()`: remove leading and trailing whitespace. -/
def pystrip (l : List Char) : List Char :=
  ((l.dropWhile isPySpace).reverse.dropWhile isPySpace).reverse

/-- Lines 57-96 of the source: the classification of a single line that is
outside a code fence and is not a fence delimiter, as the exclusive
`if`/`elif` chain of the loop body, in source order. -/
def classifyLine (line : List Char) : Block :=
  if startsWith ("# ".toList) line then Block.Heading 1 (line.drop 2)
  else if startsWith ("## ".toList) line then Block.Heading 2 (line.drop 3)
  else if startsWith ("### ".toList) line then Block.Heading 3 (line.drop 4)
  else if startsWith ("#### ".toList) line then Block.Heading 4 (line.drop 5)
  else if startsWith ("---".toList) line then Block.Rule
  else if containsStars line then Block.MixedParagraph (mixedRuns line)
  else if startsWith ("- ".toList) line then Block.BulletItem (line.drop 2)
  else if numMatch line then Block.NumberedItem (numberedText line)
  else if !(pystrip line).isEmpty then Block.Paragraph line
  else Block.BlankLine

/-- Python `line.startswith('```')` (line 36). -/
def isFenceDelim (line : List Char) : Bool :=
  startsWith ("```".toList) line

/-- One iteration of the loop (lines 34-96): from the state
`(in_code_block, code_block_content)` and the current line, the new state
and the blocks emitted for this line (zero or one).  A fence delimiter
toggles the flag; closing a fence flushes a non-empty buffer as a single
`CodeBlock` joined with newlines; inside a fence the line is buffered;
otherwise the line is classified by the `if`/`elif` chain. -/
def step (st : Bool × List (List Char)) (line : List Char) :
    (Bool × List (List Char)) × List Block :=
  if isFenceDelim line then
    if st.1 then
      ((false, []),
        if st.2.isEmpty then []
        else [Block.CodeBlock (List.intercalate ("\n".toList) st.2)])
    else ((true, st.2), [])
  else if st.1 then ((st.1, st.2 ++ [line]), [])
  else (st, [classifyLine line])

/-- The loop over all lines, threading the state; a buffer still live when
the lines run out is dropped (the flush happens only at a closing fence). -/
def convert_lines : Bool × List (List Char) → List (List Char) → List Block
  | _, [] => []
  | st, line :: rest => (step st line).2 ++ convert_lines (step st line).1 rest

/-- `convert_markdown_to_docx`, restricted to its logical content: the
block sequence produced from the input lines, starting outside any fence
with an empty buffer. -/
def convert_markdown_to_docx (lines : List (List Char)) : List Block :=
  convert_lines (false, []) lines

/-- The sequence of states observed at the start of each loop iteration,
together with the final state after the last line. -/
def statesFrom (st : Bool × List (List Char)) : List (List Char) → List (Bool × List (List Char))
  | [] => [st]
  | line :: rest => st :: statesFrom (step st line).1 rest

/-- C1: outside a code fence, a line beginning with `"# "` is a level-1
heading whose text is the line minus the 2-character prefix, `"## "` level 2,
`"### "` level 3, `"#### "` level 4 (each minus its own prefix); in
particular `"#### x"` is a level-4 heading with text `"x"`, never a level-1
heading with text `"### x"`. -/
theorem c1_heading_levels (t : List Char) :
    classifyLine ('#' :: ' ' :: t) = Block.Heading 1 t ∧
    classifyLine ('#' :: '#' :: ' ' :: t) = Block.Heading 2 t ∧
    classifyLine ('#' :: '#' :: '#' :: ' ' :: t) = Block.Heading 3 t ∧
    classifyLine ('#' :: '#' :: '#' :: '#' :: ' ' :: t) = Block.Heading 4 t ∧
    classifyLine ("#### x".toList) = Block.Heading 4 ("x".toList) ∧
    classifyLine ("#### x".toList) ≠ Block.Heading 1 ("### x".toList) :=
  ⟨rfl, rfl, rfl, rfl, by decide, by decide⟩

/-- C2: outside a code fence, a line containing `"**"` that matched none of
the earlier rules (heading prefixes, `"---"`) is emitted as one
`MixedParagraph` whose runs are the pieces of splitting on every `"**"`,
even-index pieces non-bold and odd-index pieces bold; `"**bold** and plain"`
yields runs `[("", false), ("bold", true), (" and plain", false)]`, and an
odd number of `"**"` occurrences makes the final piece a bold run
(`"**odd"` ends in a bold run `"odd"`). -/
theorem c2_mixed_runs (l : List Char)
    (hstars : containsStars l = true)
    (h1 : startsWith ['#', ' '] l = false)
    (h2 : startsWith ['#', '#', ' '] l = false)
    (h3 : startsWith ['#', '#', '#', ' '] l = false)
    (h4 : startsWith ['#', '#', '#', '#', ' '] l = false)
    (hr : startsWith ['-', '-', '-'] l = false) :
    classifyLine l = Block.MixedParagraph (mixedRuns l) ∧
    classifyLine ("**bold** and plain".toList) =
      Block.MixedParagraph
        [("".toList, false), ("bold".toList, true), (" and plain".toList, false)] ∧
    classifyLine ("**odd".toList) =
      Block.MixedParagraph [("".toList, false), ("odd".toList, true)] := by
  refine ⟨?_, by decide, by decide⟩
  simp [classifyLine, hstars, h1, h2, h3, h4, hr]

/-- Witness for C2 at the line `"**bold** and plain"`. -/
theorem c2_mixed_runs_witness :
    classifyLine ("**bold** and plain".toList) =
      Block.MixedParagraph (mixedRuns ("**bold** and plain".toList)) ∧
    classifyLine ("**bold** and plain".toList) =
      Block.MixedParagraph
        [("".toList, false), ("bold".toList, true), (" and plain".toList, false)] ∧
    classifyLine ("**odd".toList) =
      Block.MixedParagraph [("".toList, false), ("odd".toList, true)] :=
  c2_mixed_runs ("**bold** and plain".toList) (by decide) (by decide) (by decide)
    (by decide) (by decide) (by decide)

/-- C3: the input lines `["```", "line1", "line2", "```"]` produce exactly
one `CodeBlock` with text `"line1\nline2"` and nothing else. -/
theorem c3_code_fence :
    convert_markdown_to_docx (["```", "line1", "line2", "```"].map String.toList) =
      [Block.CodeBlock ("line1\nline2".toList)] := by decide

/-- C4 counterexample: the line `"- **x**"` begins with `"- "` but is
classified by the earlier bold rule as a `MixedParagraph`, not as
`BulletItem "**x**"` — the claim as stated fails on bulleted lines that
contain `"**"`. -/
theorem c4_counterexample :
    startsWith ['-', ' '] ("- **x**".toList) = true ∧
    classifyLine ("- **x**".toList) ≠ Block.BulletItem ("**x**".toList) ∧
    classifyLine ("- **x**".toList) =
      Block.MixedParagraph [("- ".toList, false), ("x".toList, true), ("".toList, false)] := by
  decide

/-- C4 (amended): outside a code fence, a line beginning with `"- "` that
does not contain `"**"` produces `BulletItem` of the line minus the
2-character prefix, and a line matching digits-period-space that does not
contain `"**"` produces `NumberedItem` of the remainder after the first
space; `"- item"` yields text `"item"` and `"1. item"` yields text
`"item"`. -/
theorem c4_list_items (t l : List Char)
    (hb : containsStars ('-' :: ' ' :: t) = false)
    (hnum : numMatch l = true)
    (hl : containsStars l = false) :
    classifyLine ('-' :: ' ' :: t) = Block.BulletItem t ∧
    classifyLine l = Block.NumberedItem (numberedText l) ∧
    classifyLine ("- item".toList) = Block.BulletItem ("item".toList) ∧
    classifyLine ("1. item".toList) = Block.NumberedItem ("item".toList) ∧
    numberedText ("1. item".toList) = "item".toList := by
  refine ⟨?_, ?_, by decide, by decide, by decide⟩
  · simp [classifyLine, startsWith, hb]
  · cases l with
    | nil => exact absurd hnum (by decide)
    | cons c cs =>
      have hc : pyIsDigit c = true := (Bool.and_eq_true _ _ ▸ hnum).1
      have hne : ∀ d : Char, pyIsDigit d = false → (d == c) = false := by
        intro d hd
        apply beq_eq_false_iff_ne.mpr
        intro e
        rw [e, hc] at hd
        exact Bool.noConfusion hd
      have h1 : ('#' == c) = false := hne '#' (by decide)
      have h2 : ('-' == c) = false := hne '-' (by decide)
      simp [classifyLine, startsWith, h1, h2, hl, hnum]

/-- Witness for C4 (amended) at `"- item"` and `"1. item"`. -/
theorem c4_list_items_witness :
    classifyLine ('-' :: ' ' :: "item".toList) = Block.BulletItem ("item".toList) ∧
    classifyLine ("1. item".toList) = Block.NumberedItem (numberedText ("1. item".toList)) ∧
    classifyLine ("- item".toList) = Block.BulletItem ("item".toList) ∧
    classifyLine ("1. item".toList) = Block.NumberedItem ("item".toList) ∧
    numberedText ("1. item".toList) = "item".toList :=
  c4_list_items ("item".toList) ("1. item".toList) (by decide) (by decide) (by decide)

/-- C5: each loop iteration emits zero or one blocks: outside a fence a
non-delimiter line emits exactly `[classifyLine line]`; a line buffered
inside a fence emits nothing; an opening delimiter emits nothing; a closing
delimiter emits nothing or one buffered `CodeBlock`. -/
theorem c5_zero_or_one (st : Bool × List (List Char)) (line : List Char) :
    (step st line).2.length ≤ 1 ∧
    (isFenceDelim line = false → st.1 = false → (step st line).2 = [classifyLine line]) ∧
    (isFenceDelim line = false → st.1 = true → (step st line).2 = []) ∧
    (isFenceDelim line = true → st.1 = false → (step st line).2 = []) ∧
    (isFenceDelim line = true → st.1 = true →
      (step st line).2 = [] ∨
        (step st line).2 = [Block.CodeBlock (List.intercalate ("\n".toList) st.2)]) := by
  obtain ⟨inCode, buf⟩ := st
  cases hf : isFenceDelim line <;> cases inCode <;>
    by_cases hb : buf.isEmpty = true <;>
      simp [step, hf, hb]

/-- Witness for C5 at state `(false, [])` and the line `"a"`. -/
theorem c5_zero_or_one_witness :
    (step (false, []) ("a".toList)).2.length ≤ 1 ∧
    (step (false, []) ("a".toList)).2 = [classifyLine ("a".toList)] :=
  ⟨(c5_zero_or_one (false, []) ("a".toList)).1,
   (c5_zero_or_one (false, []) ("a".toList)).2.1 (by decide) rfl⟩

/-- C6: when the input ends while inside a code fence, the loop completes
and emits nothing for the buffered content (the flush only happens at a
closing delimiter); in particular `["```", "line1"]` produces no blocks at
all. -/
theorem c6_unterminated_fence :
    (∀ (buf rest : List (List Char)),
        (∀ l ∈ rest, isFenceDelim l = false) →
        convert_lines (true, buf) rest = []) ∧
    convert_markdown_to_docx (["```", "line1"].map String.toList) = [] := by
  constructor
  · intro buf rest
    induction rest generalizing buf with
    | nil => intro _; rfl
    | cons l ls ih =>
      intro h
      have hf : isFenceDelim l = false := h l (by simp)
      simp only [convert_lines, step, hf, Bool.false_eq_true, if_false, List.nil_append]
      exact ih (buf ++ [l]) (fun x hx => h x (by simp [hx]))
  · decide

/-- Witness for C6: a non-delimiter line after an open fence is dropped. -/
theorem c6_unterminated_fence_witness :
    convert_lines (true, ["x".toList]) (["abc"].map String.toList) = [] :=
  c6_unterminated_fence.1 ["x".toList] (["abc"].map String.toList) (by decide)

/-- C7: outside a code fence, a line beginning with `"- "` that contains
`"**"` is emitted as a `MixedParagraph` of alternating runs, never as a
`BulletItem` — the bold rule is checked first. -/
theorem c7_bold_beats_bullet (t : List Char)
    (hstars : containsStars ('-' :: ' ' :: t) = true) :
    classifyLine ('-' :: ' ' :: t) = Block.MixedParagraph (mixedRuns ('-' :: ' ' :: t)) ∧
    ∀ s, classifyLine ('-' :: ' ' :: t) ≠ Block.BulletItem s := by
  have hcl : classifyLine ('-' :: ' ' :: t) =
      Block.MixedParagraph (mixedRuns ('-' :: ' ' :: t)) := by
    simp [classifyLine, startsWith, hstars]
  exact ⟨hcl, fun s => by simp [hcl]⟩

/-- Witness for C7 at the line `"- **x**"`. -/
theorem c7_bold_beats_bullet_witness :
    classifyLine ('-' :: ' ' :: "**x**".toList) =
      Block.MixedParagraph (mixedRuns ('-' :: ' ' :: "**x**".toList)) :=
  (c7_bold_beats_bullet ("**x**".toList) (by decide)).1

/-- Lines with none of the markup excluded by claim C8's precondition: no
heading prefix, no `"**"` substring, no bullet or numbered list prefix, no
code-fence delimiter. -/
def noMarkupLine (l : List Char) : Prop :=
  startsWith ['#', ' '] l = false ∧
  startsWith ['#', '#', ' '] l = false ∧
  startsWith ['#', '#', '#', ' '] l = false ∧
  startsWith ['#', '#', '#', '#', ' '] l = false ∧
  containsStars l = false ∧
  startsWith ['-', ' '] l = false ∧
  numMatch l = false ∧
  isFenceDelim l = false

instance (l : List Char) : Decidable (noMarkupLine l) := by
  unfold noMarkupLine
  infer_instance

/-- Claim C8 exactly as stated: a document with no headings, list items,
`"**"` substrings, or code fences converts to one `Paragraph` per
non-empty line and one `BlankLine` per empty line, in order. -/
def claimC8 : Prop :=
  ∀ doc : List (List Char), (∀ l ∈ doc, noMarkupLine l) →
    convert_markdown_to_docx doc =
      doc.map (fun l => if l = [] then Block.BlankLine else Block.Paragraph l)

/-- C8 counterexample: the one-line document `["  "]` (two spaces) has no
headings, lists, `"**"`, or fences, yet its single non-empty line is
classified as `BlankLine` (the source tests `line.strip()`), not as a
`Paragraph`; also a `"---"` line, which the precondition does not exclude,
is classified as `Rule`. -/
theorem c8_counterexample : ¬ claimC8 := by
  intro h
  exact absurd (h [[' ', ' ']] (by decide)) (by decide)

/-- A line that additionally does not begin with `"---"`. -/
def plainLine (l : List Char) : Prop :=
  noMarkupLine l ∧ startsWith ['-', '-', '-'] l = false

instance (l : List Char) : Decidable (plainLine l) := by
  unfold plainLine
  infer_instance

/-- Classification of a markup-free line: `Paragraph` when something
survives `strip()`, `BlankLine` otherwise. -/
lemma classifyLine_plain (l : List Char) (h : plainLine l) :
    classifyLine l = if (pystrip l).isEmpty then Block.BlankLine else Block.Paragraph l := by
  obtain ⟨⟨h1, h2, h3, h4, hs, hbul, hnum, _⟩, hr⟩ := h
  simp only [classifyLine]
  simp [h1, h2, h3, h4, hs, hbul, hnum, hr]

/-- Over markup-free lines the loop never enters a fence, so it reduces to
mapping `classifyLine`. -/
lemma convert_lines_plain (buf doc : List (List Char))
    (h : ∀ l ∈ doc, plainLine l) :
    convert_lines (false, buf) doc = doc.map classifyLine := by
  induction doc with
  | nil => rfl
  | cons l ls ih =>
    have hf : isFenceDelim l = false := (h l (by simp)).1.2.2.2.2.2.2.2
    simp [convert_lines, step, hf, ih (fun x hx => h x (by simp [hx]))]

/-- C8 (amended): for every document whose lines carry no markup and do
not begin with `"---"`, the classifier emits one `Paragraph` per line that
is non-empty after stripping whitespace and one `BlankLine` per line that
strips to empty, in the original order, with paragraph text unmodified. -/
theorem c8_plain_documents (doc : List (List Char)) (h : ∀ l ∈ doc, plainLine l) :
    convert_markdown_to_docx doc =
      doc.map (fun l => if (pystrip l).isEmpty then Block.BlankLine else Block.Paragraph l) := by
  rw [convert_markdown_to_docx, convert_lines_plain [] doc h]
  exact List.map_congr_left (fun l hl => classifyLine_plain l (h l hl))

/-- Witness for C8 (amended) on the document `["hello", "", "  "]`. -/
theorem c8_plain_documents_witness :
    convert_markdown_to_docx (["hello", "", "  "].map String.toList) =
      (["hello", "", "  "].map String.toList).map
        (fun l => if (pystrip l).isEmpty then Block.BlankLine else Block.Paragraph l) :=
  c8_plain_documents (["hello", "", "  "].map String.toList) (by decide)

/-- A heading prefix (`m` hashes then a space) never matches a line whose
maximal leading hash run (of length `k ≥ 1`) is followed by neither a space
nor a hash. -/
lemma startsWith_hashes_nonspace (m : Nat) :
    ∀ (k : Nat) (rest : List Char), 1 ≤ k →
      rest.head? ≠ some ' ' → rest.head? ≠ some '#' →
      startsWith (List.replicate m '#' ++ [' ']) (List.replicate k '#' ++ rest) = false := by
  induction m with
  | zero =>
    intro k rest hk _ _
    obtain ⟨k', rfl⟩ : ∃ k', k = k' + 1 := ⟨k - 1, (Nat.succ_pred_eq_of_pos hk).symm⟩
    simp [List.replicate_succ, startsWith]
  | succ m ih =>
    intro k rest hk hsp hh
    obtain ⟨k', rfl⟩ : ∃ k', k = k' + 1 := ⟨k - 1, (Nat.succ_pred_eq_of_pos hk).symm⟩
    cases k' with
    | zero =>
      cases rest with
      | nil => cases m <;> simp [List.replicate_succ, startsWith]
      | cons r rs =>
        have hr1 : (' ' == r) = false := by
          apply beq_eq_false_iff_ne.mpr
          intro e
          exact hsp (by simp [e.symm])
        have hr2 : ('#' == r) = false := by
          apply beq_eq_false_iff_ne.mpr
          intro e
          exact hh (by simp [e.symm])
        cases m with
        | zero => simp [List.replicate_succ, startsWith, hr1]
        | succ m' => simp [List.replicate_succ, startsWith, hr2]
    | succ k'' =>
      have hrec := ih (k'' + 1) rest (Nat.succ_le_succ (Nat.zero_le _)) hsp hh
      simp [List.replicate_succ, startsWith, hrec]
      simp [List.replicate_succ] at hrec
      exact hrec

/-- A heading prefix of `m` hashes never matches a line of `k > m` hashes
followed by a space: the prefix demands a space where the line still has a
hash. -/
lemma startsWith_hashes_space (m : Nat) :
    ∀ (k : Nat) (rest : List Char), m < k →
      startsWith (List.replicate m '#' ++ [' ']) (List.replicate k '#' ++ ' ' :: rest) = false := by
  induction m with
  | zero =>
    intro k rest hk
    obtain ⟨k', rfl⟩ : ∃ k', k = k' + 1 := ⟨k - 1, (Nat.succ_pred_eq_of_pos hk).symm⟩
    simp [List.replicate_succ, startsWith]
  | succ m ih =>
    intro k rest hk
    obtain ⟨k', rfl⟩ : ∃ k', k = k' + 1 :=
      ⟨k - 1, (Nat.succ_pred_eq_of_pos (Nat.lt_of_le_of_lt (Nat.zero_le _) hk)).symm⟩
    have hrec := ih k' rest (Nat.lt_of_succ_lt_succ hk)
    simp [List.replicate_succ, startsWith, hrec]

/-- Once the four heading prefixes fail, no branch of the chain emits a
heading. -/
lemma classifyLine_ne_heading (l : List Char)
    (h1 : startsWith ['#', ' '] l = false)
    (h2 : startsWith ['#', '#', ' '] l = false)
    (h3 : startsWith ['#', '#', '#', ' '] l = false)
    (h4 : startsWith ['#', '#', '#', '#', ' '] l = false) :
    ∀ lv t, classifyLine l ≠ Block.Heading lv t := by
  intro lv t
  simp only [classifyLine]
  simp [h1, h2, h3, h4]
  split_ifs <;> simp

/-- A line whose first character survives `strip()` is non-blank. -/
lemma pystrip_cons_isEmpty (c : Char) (xs : List Char) (hc : isPySpace c = false) :
    (pystrip (c :: xs)).isEmpty = false := by
  have hdrop : (c :: xs).dropWhile isPySpace = c :: xs := by
    simp [List.dropWhile_cons, hc]
  rw [pystrip, hdrop]
  cases he : (((c :: xs).reverse.dropWhile isPySpace).reverse).isEmpty with
  | false => rfl
  | true =>
    exfalso
    rw [List.isEmpty_iff] at he
    have h0 : ((c :: xs).reverse).dropWhile isPySpace = [] := List.reverse_eq_nil_iff.mp he
    rw [List.dropWhile_eq_nil_iff] at h0
    have hmem := h0 c (by simp)
    rw [hc] at hmem
    exact Bool.noConfusion hmem

/-- C9: a line whose maximal leading hash run is not followed by a space
(e.g. `"#text"`, `"##x"`), or a line of five or more hashes followed by a
space (e.g. `"##### x"`), is never classified as a heading of any level;
absent `"**"` it falls through to a `Paragraph` with the text unchanged
(list and `"---"` prefixes cannot occur on a line beginning with `'#'`). -/
theorem c9_hash_edge_cases (k : Nat) (rest : List Char)
    (hk : 1 ≤ k) (hsp : rest.head? ≠ some ' ') (hh : rest.head? ≠ some '#') :
    (∀ lv t, classifyLine (List.replicate k '#' ++ rest) ≠ Block.Heading lv t) ∧
    (containsStars (List.replicate k '#' ++ rest) = false →
      classifyLine (List.replicate k '#' ++ rest) =
        Block.Paragraph (List.replicate k '#' ++ rest)) ∧
    (∀ (n : Nat) (tail : List Char), 5 ≤ n →
      (∀ lv t, classifyLine (List.replicate n '#' ++ ' ' :: tail) ≠ Block.Heading lv t) ∧
      (containsStars (List.replicate n '#' ++ ' ' :: tail) = false →
        classifyLine (List.replicate n '#' ++ ' ' :: tail) =
          Block.Paragraph (List.replicate n '#' ++ ' ' :: tail))) := by
  obtain ⟨k0, rfl⟩ : ∃ k0, k = k0 + 1 := ⟨k - 1, (Nat.succ_pred_eq_of_pos hk).symm⟩
  have hd : List.replicate (k0 + 1) '#' ++ rest = '#' :: (List.replicate k0 '#' ++ rest) := by
    simp [List.replicate_succ]
  have hA1 : startsWith ['#', ' '] (List.replicate (k0 + 1) '#' ++ rest) = false :=
    startsWith_hashes_nonspace 1 (k0 + 1) rest hk hsp hh
  have hA2 : startsWith ['#', '#', ' '] (List.replicate (k0 + 1) '#' ++ rest) = false :=
    startsWith_hashes_nonspace 2 (k0 + 1) rest hk hsp hh
  have hA3 : startsWith ['#', '#', '#', ' '] (List.replicate (k0 + 1) '#' ++ rest) = false :=
    startsWith_hashes_nonspace 3 (k0 + 1) rest hk hsp hh
  have hA4 : startsWith ['#', '#', '#', '#', ' '] (List.replicate (k0 + 1) '#' ++ rest) = false :=
    startsWith_hashes_nonspace 4 (k0 + 1) rest hk hsp hh
  have hrule : startsWith ['-', '-', '-'] (List.replicate (k0 + 1) '#' ++ rest) = false := by
    rw [hd]
    rfl
  have hbul : startsWith ['-', ' '] (List.replicate (k0 + 1) '#' ++ rest) = false := by
    rw [hd]
    rfl
  have hnm : numMatch (List.replicate (k0 + 1) '#' ++ rest) = false := by
    rw [hd]
    rfl
  have hps : (pystrip (List.replicate (k0 + 1) '#' ++ rest)).isEmpty = false := by
    rw [hd]
    exact pystrip_cons_isEmpty '#' _ (by decide)
  refine ⟨classifyLine_ne_heading _ hA1 hA2 hA3 hA4, ?_, ?_⟩
  · intro hstars
    simp [classifyLine, hA1, hA2, hA3, hA4, hrule, hstars, hbul, hnm, hps]
  · intro n tail hn
    obtain ⟨n0, rfl⟩ : ∃ n0, n = n0 + 1 :=
      ⟨n - 1, (Nat.succ_pred_eq_of_pos (Nat.lt_of_lt_of_le (by decide) hn)).symm⟩
    have hd' : List.replicate (n0 + 1) '#' ++ ' ' :: tail =
        '#' :: (List.replicate n0 '#' ++ ' ' :: tail) := by
      simp [List.replicate_succ]
    have hB1 : startsWith ['#', ' '] (List.replicate (n0 + 1) '#' ++ ' ' :: tail) = false :=
      startsWith_hashes_space 1 (n0 + 1) tail (by omega)
    have hB2 : startsWith ['#', '#', ' '] (List.replicate (n0 + 1) '#' ++ ' ' :: tail) = false :=
      startsWith_hashes_space 2 (n0 + 1) tail (by omega)
    have hB3 : startsWith ['#', '#', '#', ' ']
        (List.replicate (n0 + 1) '#' ++ ' ' :: tail) = false :=
      startsWith_hashes_space 3 (n0 + 1) tail (by omega)
    have hB4 : startsWith ['#', '#', '#', '#', ' ']
        (List.replicate (n0 + 1) '#' ++ ' ' :: tail) = false :=
      startsWith_hashes_space 4 (n0 + 1) tail (by omega)
    have hrule' : startsWith ['-', '-', '-']
        (List.replicate (n0 + 1) '#' ++ ' ' :: tail) = false := by
      rw [hd']
      rfl
    have hbul' : startsWith ['-', ' '] (List.replicate (n0 + 1) '#' ++ ' ' :: tail) = false := by
      rw [hd']
      rfl
    have hnm' : numMatch (List.replicate (n0 + 1) '#' ++ ' ' :: tail) = false := by
      rw [hd']
      rfl
    have hps' : (pystrip (List.replicate (n0 + 1) '#' ++ ' ' :: tail)).isEmpty = false := by
      rw [hd']
      exact pystrip_cons_isEmpty '#' _ (by decide)
    refine ⟨classifyLine_ne_heading _ hB1 hB2 hB3 hB4, ?_⟩
    intro hstars
    simp [classifyLine, hB1, hB2, hB3, hB4, hrule', hstars, hbul', hnm', hps']

/-- Witness for C9 at the lines `"#text"` and `"##### x"`. -/
theorem c9_hash_edge_cases_witness :
    classifyLine ("#text".toList) = Block.Paragraph ("#text".toList) ∧
    classifyLine ("##### x".toList) = Block.Paragraph ("##### x".toList) :=
  ⟨(c9_hash_edge_cases 1 ("text".toList) (by decide) (by decide) (by decide)).2.1 (by decide),
   ((c9_hash_edge_cases 1 ("text".toList) (by decide) (by decide) (by decide)).2.2
      5 ("x".toList) (by decide)).2 (by decide)⟩

/-- One step keeps the invariant "buffer non-empty only inside a fence". -/
lemma step_preserves_inv (st : Bool × List (List Char)) (line : List Char)
    (h : st.1 = false → st.2 = []) :
    (step st line).1.1 = false → (step st line).1.2 = [] := by
  obtain ⟨inCode, buf⟩ := st
  cases hf : isFenceDelim line <;> cases inCode
  · simpa [step, hf] using h
  · simp [step, hf]
  · simp [step, hf]
  · simp [step, hf]

/-- All states reached from a state satisfying the buffer invariant
satisfy it. -/
lemma statesFrom_inv (lines : List (List Char)) :
    ∀ (st : Bool × List (List Char)), (st.1 = false → st.2 = []) →
      ∀ s ∈ statesFrom st lines, s.1 = false → s.2 = [] := by
  induction lines with
  | nil =>
    intro st hst s hs
    simp only [statesFrom, List.mem_singleton] at hs
    subst hs
    exact hst
  | cons l ls ih =>
    intro st hst s hs
    simp only [statesFrom, List.mem_cons] at hs
    rcases hs with rfl | hs
    · exact hst
    · exact ih (step st l).1 (step_preserves_inv st l hst) s hs

/-- C10: at the start of every iteration (and after the last line) the
code-fence buffer is non-empty only when `in_code_block` is true; closing a
fence flushes exactly the buffered lines (joined with newlines) and clears
the buffer, and a line inside a fence is appended to the buffer while
emitting nothing. -/
theorem c10_buffer_invariant :
    (∀ (lines : List (List Char)) (s : Bool × List (List Char)),
        s ∈ statesFrom (false, []) lines → s.1 = false → s.2 = []) ∧
    (∀ (st : Bool × List (List Char)) (line : List Char),
        st.1 = true → isFenceDelim line = true →
        (step st line).2 =
            (if st.2.isEmpty then []
             else [Block.CodeBlock (List.intercalate ("\n".toList) st.2)]) ∧
          (step st line).1.2 = []) ∧
    (∀ (st : Bool × List (List Char)) (line : List Char),
        st.1 = true → isFenceDelim line = false →
        (step st line).1.2 = st.2 ++ [line] ∧ (step st line).2 = []) := by
  refine ⟨fun lines s hs => statesFrom_inv lines (false, []) (fun _ => rfl) s hs, ?_, ?_⟩
  · intro st line h1 hf
    obtain ⟨inCode, buf⟩ := st
    cases inCode
    · exact Bool.noConfusion h1
    · constructor <;> simp [step, hf]
  · intro st line h1 hf
    obtain ⟨inCode, buf⟩ := st
    cases inCode
    · exact Bool.noConfusion h1
    · constructor <;> simp [step, hf]

/-- Witness for C10: the initial state, and a closing fence flushing a
one-line buffer. -/
theorem c10_buffer_invariant_witness :
    (((false : Bool), ([] : List (List Char))).2 = []) ∧
    (step (true, ["a".toList]) ("```".toList)).2 =
        (if (["a".toList] : List (List Char)).isEmpty then []
         else [Block.CodeBlock (List.intercalate ("\n".toList) ["a".toList])]) ∧
      (step (true, ["a".toList]) ("```".toList)).1.2 = [] :=
  ⟨c10_buffer_invariant.1 [] (false, []) (by decide) rfl,
   c10_buffer_invariant.2.1 (true, ["a".toList]) ("```".toList) rfl (by decide)⟩

end Farmverse
